import Mathlib

/-!
Verification development for the etlkit repository: a shallow embedding of
the pipeline orchestration (templates.py), the validation checkers, the base
load class (src/_baseclasses.py), the configuration container (containers.py)
and the extractors (src/etlkit/extractors.py), together with theorems that
settle the frozen claims about them.
-/

set_option autoImplicit false

namespace Etl

/-- Exception classes that appear in the checker test tuples of templates.py
(the third component of each tuple: ValueError, TypeError, KeyError). -/
inductive ExcTag where
| valueError
| typeError
| keyError
deriving DecidableEq, Repr

/-- Python exceptions (and SystemExit) that the embedded code can raise.
The aggregate constructor models the generic Exception(exceptions) raised by
generic_check_handler, carrying the list produced by mapping generic_checker
over the tests (None entries for passed tests, an exception class otherwise). -/
inductive PyErr where
| valueError (msg : String)
| typeError (msg : String)
| keyError (key : String)
| attributeError (attr : String)
| indexError (msg : String)
| aggregate (excs : List (Option ExcTag))
| sysExit
deriving DecidableEq, Repr

/-- A pandas DataFrame, modelled column-wise: a list of named columns, each a
list of cell values (all columns of a well-formed frame have the same length). -/
structure DataFrame where
cols : List (String × List String)
deriving DecidableEq, Repr

/-- df.columns -/
def DataFrame.columns (d : DataFrame) : List String :=
d.cols.map Prod.fst

/-- Column lookup, the total part of df[c]. -/
def DataFrame.getCol (d : DataFrame) (c : String) : Option (List String) :=
(d.cols.find? (fun p => p.1 == c)).map Prod.snd

/-- Number of rows (length of the first column, 0 when there are no columns). -/
def DataFrame.nrows (d : DataFrame) : Nat :=
((d.cols.head?).map (fun p => p.2.length)).getD 0

/-- df.empty: true when either axis has length 0. -/
def DataFrame.isEmpty (d : DataFrame) : Bool :=
d.cols.isEmpty || d.nrows == 0

/-- A Python value as it flows through the pipeline: a DataFrame, None, a
string, or a dict (used for the dataframes attribute of Data). -/
inductive PyVal where
| df (d : DataFrame)
| pyNone
| str (s : String)
| dict (items : List (String × PyVal))

/-- isinstance(v, DataFrame) -/
def PyVal.isDFb : PyVal → Bool
| PyVal.df _ => true
| _ => false

/-- Attribute access v.empty: AttributeError on anything but a DataFrame. -/
def PyVal.emptyAttr : PyVal → Except PyErr Bool
| PyVal.df d => Except.ok d.isEmpty
| _ => Except.error (PyErr.attributeError "empty")

/-- Attribute access v.columns: AttributeError on anything but a DataFrame. -/
def PyVal.columnsAttr : PyVal → Except PyErr (List String)
| PyVal.df d => Except.ok d.columns
| _ => Except.error (PyErr.attributeError "columns")

/-- Subscription v[c] on a DataFrame: the pandas KeyError carries the missing
key. On a non-DataFrame the attribute machinery fails first in our callers. -/
def PyVal.getItem : PyVal → String → Except PyErr (List String)
| PyVal.df d, c =>
  match d.getCol c with
  | some vs => Except.ok vs
  | none => Except.error (PyErr.keyError c)
| _, _ => Except.error (PyErr.attributeError "getitem")

/-- Boolean form of the pandas Series.is_unique predicate: no duplicates. -/
def listNodup : List String → Bool
| [] => true
| x :: xs => (!(xs.contains x)) && listNodup xs

/-- The Config dataclass of containers.py. -/
structure Config where
update_mode : Bool
table_name : String
dataset_name : String
lookbacktime : Int
min_date : String
deriving DecidableEq, Repr

/-- The Data container of containers.py: its dataframes attribute is set from
keyword arguments, so it can hold an arbitrary Python value, not only a dict. -/
structure Data where
dataframes : PyVal

/-- Config.__init__ of containers.py. The module global LOCATION is the
location argument; fmt abstracts the expression
(Timestamp.now() - Timedelta(days=n)).strftime of the source, with the current
time captured, so it is a function of the day count alone. -/
def Config.init (location : Option String) (fmt : Int → String)
(update_mode : Bool) (table_name : String) (dataset_name : String)
(lookbacktime : Int) (min_date : String) : Config :=
let c : Config := ⟨update_mode, table_name, dataset_name, lookbacktime, min_date⟩
let c2 : Config :=
  if location == some "cloud" then
    ⟨true, c.table_name, c.dataset_name, c.lookbacktime, c.min_date⟩
  else c
if update_mode then
  ⟨c2.update_mode, c2.table_name, c2.dataset_name, c2.lookbacktime, fmt lookbacktime⟩
else c2

/-- generic_checker of templates.py: returns None when the test passes, and
the exception class (after logging the message) when it fails. -/
def generic_checker (t : Bool × String × ExcTag) : Option ExcTag :=
if t.1 then none else some t.2.2

/-- generic_check_handler of templates.py: maps generic_checker over the tests
and raises Exception(exceptions) when any entry is not None (both LOCATION
branches of the source raise the same exception). -/
def generic_check_handler (tests : List (Bool × String × ExcTag)) : Except PyErr Unit :=
let exceptions := tests.map generic_checker
if exceptions.any (fun x => x.isSome) then Except.error (PyErr.aggregate exceptions)
else Except.ok ()

/-- load_checker of templates.py. Building the Python list literal evaluates
df.columns and df[Unique_ID].is_unique eagerly, so those accesses can raise
before generic_check_handler runs; afterwards the empty-frame branch only logs
and returns None. -/
def load_checker (df : PyVal) (config : Config) : Except PyErr Unit :=
let t1 : Bool × String × ExcTag :=
  (config.table_name != "", "Table name cannot be empty.", ExcTag.valueError)
let t2 : Bool × String × ExcTag :=
  (config.dataset_name != "", "Dataset name cannot be empty.", ExcTag.valueError)
let t3 : Bool × String × ExcTag :=
  (df.isDFb, "Expected a dataframe", ExcTag.typeError)
match df.columnsAttr with
| Except.error e => Except.error e
| Except.ok cols =>
  let t4 : Bool × String × ExcTag :=
    (cols.contains "Unique_ID", "No Unique_ID col in the output.", ExcTag.keyError)
  match df.getItem "Unique_ID" with
  | Except.error e => Except.error e
  | Except.ok vs =>
    let t5 : Bool × String × ExcTag :=
      (listNodup vs, "The Unique_ID col is not unique.", ExcTag.valueError)
    match generic_check_handler [t1, t2, t3, t4, t5] with
    | Except.error e => Except.error e
    | Except.ok _ =>
      match df.emptyAttr with
      | Except.error e => Except.error e
      | Except.ok _ => Except.ok ()

/-- transform_checker of templates.py; the same eager evaluation of the test
list applies. -/
def transform_checker (output : PyVal) : Except PyErr Unit :=
let t1 : Bool × String × ExcTag :=
  (output.isDFb, "Expected a dataframe", ExcTag.typeError)
match output.columnsAttr with
| Except.error e => Except.error e
| Except.ok cols =>
  let t2 : Bool × String × ExcTag :=
    (cols.contains "Unique_ID", "No Unique_ID col in the output.", ExcTag.keyError)
  match output.getItem "Unique_ID" with
  | Except.error e => Except.error e
  | Except.ok vs =>
    let t3 : Bool × String × ExcTag :=
      (listNodup vs, "The Unique_ID col is not unique.", ExcTag.valueError)
    generic_check_handler [t1, t2, t3]

/-- TransformTemplate.throw_errors of templates.py: returns normally when the
error list is empty, otherwise logs every error and calls sys.exit(). -/
def throw_errors (errors : List PyErr) : Except PyErr Unit :=
if errors.isEmpty then Except.ok () else Except.error PyErr.sysExit

/-- The loop body of TransformTemplate.test_inputs: for each (key, value) item
it first appends a TypeError when the value is not a DataFrame, then evaluates
value.empty (which raises AttributeError on a non-DataFrame) and appends a
ValueError when the frame is empty. -/
def collect_errors : List (String × PyVal) → List PyErr → Except PyErr (List PyErr)
| [], acc => Except.ok acc
| (k, v) :: rest, acc =>
  let acc1 := if v.isDFb then acc
    else acc ++ [PyErr.typeError "Expected a DataFrame"]
  match v.emptyAttr with
  | Except.error e => Except.error e
  | Except.ok b =>
    let acc2 := if b then acc1 ++ [PyErr.valueError ("Dataframe " ++ k ++ " is empty.")]
      else acc1
    collect_errors rest acc2

/-- TransformTemplate.test_inputs of templates.py: when dataframes is not a
dict the TypeError is collected and throw_errors exits at once; otherwise the
items are scanned by collect_errors and throw_errors runs on the result. -/
def test_inputs (data : Data) : Except PyErr Unit :=
match data.dataframes with
| PyVal.dict items =>
  match collect_errors items [] with
  | Except.error e => Except.error e
  | Except.ok errors => throw_errors errors
| _ => throw_errors [PyErr.typeError "Expected a dict"]

/-- A TemplatePipeline of templates.py: the stage callables supplied by the
subclasses (extractor(config).run() and transformer().run(data)), plus the
config attribute. The loader stage is observed through the event trace. -/
structure Pipeline where
extractorRun : Config → Data
transformerRun : Data → PyVal

/-- One stage call made by TemplatePipeline.run, with the arguments passed and
(for the producing stages) the value returned. -/
inductive StageEvent where
| extractCall (cfg : Config) (result : Data)
| transformCall (input : Data) (result : PyVal)
| loadCall (df : PyVal) (cfg : Config)

/-- Recognises the loader invocation in a pipeline trace. -/
def isLoadCallEv : StageEvent → Bool
| StageEvent.loadCall _ _ => true
| _ => false

/-- TemplatePipeline.run of templates.py: sys.exit when config is None, else
extract, transform (followed by transform_checker), then load (load_checker
followed by the loader call); the trace records the stage calls actually made. -/
def pipelineRun (p : Pipeline) (config : Option Config) :
    Except PyErr Unit × List StageEvent :=
match config with
| none => (Except.error PyErr.sysExit, [])
| some cfg =>
  let data := p.extractorRun cfg
  let df := p.transformerRun data
  let evs := [StageEvent.extractCall cfg data, StageEvent.transformCall data df]
  match transform_checker df with
  | Except.error e => (Except.error e, evs)
  | Except.ok _ =>
    match load_checker df cfg with
    | Except.error e => (Except.error e, evs)
    | Except.ok _ => (Except.ok (), evs ++ [StageEvent.loadCall df cfg])

/-- BaseLoad.__call__ of src/_baseclasses.py. The returned value is None
(modelled none) when the empty-frame short-circuit fires, and some (df, table)
when the concrete load method is invoked with the full table name. -/
def BaseLoad_call (projectId : String) (df : PyVal) (config : Config) :
    Except PyErr (Option (DataFrame × String)) :=
if config.table_name == "" then
  Except.error (PyErr.valueError "Table name cannot be empty.")
else if config.dataset_name == "" then
  Except.error (PyErr.valueError "Dataset name cannot be empty.")
else
  match df with
  | PyVal.df d =>
    if !(d.columns.contains "Unique_ID") then
      Except.error (PyErr.keyError "Expected a column called Unique_ID in the output dataframe.")
    else if d.isEmpty then Except.ok none
    else Except.ok (some (d, projectId ++ "." ++ config.dataset_name ++ "." ++ config.table_name))
  | _ => Except.error (PyErr.typeError "Expected a dataframe")

/-- An ExtractorJob of src/etlkit/extractors.py: the runner is the bound
query_runner of the extractor object. -/
structure ExtractorJob where
name : String
query : String
runner : String → DataFrame

/-- Python dict assignment d[k] = v: an existing key keeps its position and
gets the new value, a fresh key is appended. -/
def dictInsert (d : List (String × DataFrame)) (k : String) (v : DataFrame) :
    List (String × DataFrame) :=
if d.any (fun p => p.1 == k) then
  d.map (fun p => if p.1 == k then (k, v) else p)
else d ++ [(k, v)]

/-- MultiExtractor._run of src/etlkit/extractors.py: run each job in order and
bind df_ plus the job name to the extracted frame. -/
def runSeq (jobs : List ExtractorJob) : List (String × DataFrame) :=
jobs.foldl (fun acc job => dictInsert acc ("df_" ++ job.name) (job.runner job.query)) []

/-- The tasks created by MultiExtractor._extract_async: one per job, each
holding the value the awaited task yields (the runner applied to the query). -/
def tasksOf (jobs : List ExtractorJob) : List DataFrame :=
jobs.map (fun job => job.runner job.query)

/-- MultiExtractor._extract_async of src/etlkit/extractors.py: fan out one task
per job, then await the tasks zipped with the job names in job order and bind
the results. -/
def runAsync (jobs : List ExtractorJob) : List (String × DataFrame) :=
(List.zip (tasksOf jobs) (jobs.map (fun j => j.name))).foldl
  (fun acc p => dictInsert acc ("df_" ++ p.2) p.1) []

/-- The SalesforceCreds dataclass of src/etlkit/credentials.py. -/
structure SalesforceCreds where
username : String
password : String
security_token : String
deriving DecidableEq, Repr

/-- The vendor client object a SalesforceExtractor may construct. -/
inductive SFClient where
| salesforce (c : SalesforceCreds)
| salesforceBulk (c : SalesforceCreds)
deriving DecidableEq, Repr

/-- Which bound method SalesforceExtractor.__init__ stores as query_runner. -/
inductive RunnerKind where
| simpleQuery
| bulkRunner
deriving DecidableEq, Repr

/-- The attributes SalesforceExtractor.__init__ leaves on the instance:
query_runner is always set, client only on the credentialed paths. -/
structure SFExtractor where
query_runner : RunnerKind
client : Option SFClient
deriving DecidableEq, Repr

/-- SalesforceExtractor.__init__ of src/etlkit/extractors.py. getCreds
abstracts get_salesforce_creds (file reading); the second component collects
the logging.error lines emitted. -/
def SalesforceExtractor_init (getCreds : String → Except PyErr SalesforceCreds)
    (bulk : Bool) (creds_json : String) : Except PyErr (SFExtractor × List String) :=
if creds_json == "" then
  Except.ok (⟨RunnerKind.simpleQuery, none⟩,
    ["SalesforceExtractor: No Salesforce credentials JSON file provided.",
     "SalesforceExtractor: set salesforce_creds_json = [path to JSON file]"])
else
  match getCreds creds_json with
  | Except.error e => Except.error e
  | Except.ok creds =>
    if bulk then
      Except.ok (⟨RunnerKind.bulkRunner, some (SFClient.salesforceBulk creds)⟩, [])
    else
      Except.ok (⟨RunnerKind.simpleQuery, some (SFClient.salesforce creds)⟩, [])

/-- Whether sep is a prefix of the character list. -/
def isPrefixOfList : List Char → List Char → Bool
| [], _ => true
| _ :: _, [] => false
| a :: as, b :: bs => (a == b) && isPrefixOfList as bs

/-- Worker for Python str.split with a non-empty separator: scan left to
right, emitting the accumulated (reversed) chunk at each separator occurrence.
The fuel argument only serves structural termination; pySplit supplies enough
for it never to run out. -/
def pySplitGo (sep : List Char) : Nat → List Char → List Char → List (List Char)
| _, [], acc => [acc.reverse]
| 0, s, acc => [acc.reverse ++ s]
| fuel + 1, c :: rest, acc =>
  if isPrefixOfList sep (c :: rest) then
    acc.reverse :: pySplitGo sep fuel (List.drop sep.length (c :: rest)) []
  else
    pySplitGo sep fuel rest (c :: acc)

/-- Python s.split(sep) for a non-empty separator. -/
def pySplit (sep s : String) : List String :=
(pySplitGo sep.data (s.data.length + 1) s.data []).map String.mk

/-- The object extraction of SalesforceExtractor._bulk_query:
query.split(FROM-space)[1].split(newline)[0]; the subscript [1] raises
IndexError when the separator does not occur in the query. -/
def extractObj (query : String) : Except PyErr String :=
let parts := pySplit "FROM " query
match parts[1]? with
| none => Except.error (PyErr.indexError "list index out of range")
| some p => Except.ok ((pySplit "\n" p).headD "")

/-- The observable steps of SalesforceExtractor._bulk_query. -/
inductive BulkEvent where
| createJob (obj : String)
| submitBatch (query : String)
| closeJob
| checkDone (poll : Nat) (done : Bool)
| sleepSec (n : Nat)
| fetchResults
deriving DecidableEq, Repr

/-- The polling loop of _bulk_query: poll number k asks is_batch_done; on
false it sleeps one second and polls again. The fuel bounds how many polls we
unfold; none means the loop is still running after fuel polls. -/
def pollEvents (isDone : Nat → Bool) : Nat → Nat → Option (List BulkEvent)
| 0, _ => none
| fuel + 1, k =>
  if isDone k then some [BulkEvent.checkDone k true]
  else
    match pollEvents isDone fuel (k + 1) with
    | none => none
    | some evs => some (BulkEvent.checkDone k false :: BulkEvent.sleepSec 1 :: evs)

/-- The trace the polling loop produces when polls k, ..., k+n-1 come back
false and poll k+n comes back true. -/
def pollTrace : Nat → Nat → List BulkEvent
| k, 0 => [BulkEvent.checkDone k true]
| k, n + 1 => BulkEvent.checkDone k false :: BulkEvent.sleepSec 1 :: pollTrace (k + 1) n

/-- SalesforceExtractor._bulk_query of src/etlkit/extractors.py: extract the
object name, create one query job, submit one batch, close the job, poll until
is_batch_done, then fetch the results. ok none marks a poll loop still running
after fuel polls. -/
def bulkQuery (isDone : Nat → Bool) (fuel : Nat) (query : String) :
    Except PyErr (Option (List BulkEvent)) :=
match extractObj query with
| Except.error e => Except.error e
| Except.ok obj =>
  match pollEvents isDone fuel 0 with
  | none => Except.ok none
  | some evs =>
    Except.ok (some (BulkEvent.createJob obj :: BulkEvent.submitBatch query ::
      BulkEvent.closeJob :: (evs ++ [BulkEvent.fetchResults])))

/-- Event class predicates used to count protocol steps in a trace. -/
def isCreateEv : BulkEvent → Bool
| BulkEvent.createJob _ => true
| _ => false

def isSubmitEv : BulkEvent → Bool
| BulkEvent.submitBatch _ => true
| _ => false

def isCloseEv : BulkEvent → Bool
| BulkEvent.closeJob => true
| _ => false

def isSleepEv : BulkEvent → Bool
| BulkEvent.sleepSec _ => true
| _ => false

def isFetchEv : BulkEvent → Bool
| BulkEvent.fetchResults => true
| _ => false

/-- Concrete objects used by the witness theorems. -/
def dfW : DataFrame := ⟨[("Unique_ID", ["a", "b"])]⟩

def dfEmptyW : DataFrame := ⟨[("Unique_ID", ([] : List String))]⟩

def dfNoIdW : DataFrame := ⟨[("Name", ["a"])]⟩

def cfgW : Config := ⟨false, "t", "ds", 5, "2023-01-01T00:00:00Z"⟩

def cfgEmptyTableW : Config := ⟨false, "", "ds", 5, "2023-01-01T00:00:00Z"⟩

def dataW : Data := ⟨PyVal.dict []⟩

def pW : Pipeline := ⟨fun _ => dataW, fun _ => PyVal.df dfW⟩

def isDoneW : Nat → Bool := fun n => n == 2

/-- The behaviour the amended bulk-query claim asserts of _bulk_query for a
query whose object extraction succeeds with obj: without a successful poll the
loop runs forever; once is_batch_done first returns true at poll number
Nat.find, the call returns a trace that opens with exactly one create-job, one
batch submission and one job close, sleeps one second per unsuccessful poll,
and fetches the results exactly once, immediately after the successful poll. -/
def bulkQuerySpec (isDone : Nat → Bool) (q obj : String) : Prop :=
((∀ n, isDone n = false) → ∀ fuel, bulkQuery isDone fuel q = Except.ok none) ∧
(∀ hdone : ∃ n, isDone n = true, ∃ trace,
  bulkQuery isDone (Nat.find hdone + 1) q = Except.ok (some trace) ∧
  (∃ rest, trace = BulkEvent.createJob obj :: BulkEvent.submitBatch q ::
    BulkEvent.closeJob :: rest) ∧
  trace.countP isCreateEv = 1 ∧
  trace.countP isSubmitEv = 1 ∧
  trace.countP isCloseEv = 1 ∧
  trace.countP isFetchEv = 1 ∧
  trace.countP isSleepEv = Nat.find hdone ∧
  (∀ m, BulkEvent.sleepSec m ∈ trace → m = 1) ∧
  (∃ pre, trace = pre ++ [BulkEvent.checkDone (Nat.find hdone) true, BulkEvent.fetchResults]))

/-- A failed test maps to its exception class, a passed one to none. -/
theorem isSome_generic_checker (t : Bool × String × ExcTag) :
    (generic_checker t).isSome = !t.1 := by
  rcases t with ⟨b, m, e⟩
  cases b <;> rfl

/-- No entry of the mapped exception list is present exactly when every test
in the list passes. -/
theorem checker_any_false (ts : List (Bool × String × ExcTag)) :
    ((ts.map generic_checker).any fun x => x.isSome) = false ↔ ∀ t ∈ ts, t.1 = true := by
  induction ts with
  | nil => simp
  | cons t rest ih =>
    rcases t with ⟨b, m, e⟩
    cases b <;> simp [generic_checker, ih]

/-- generic_check_handler returns normally exactly when every test passes. -/
theorem handler_ok_iff (ts : List (Bool × String × ExcTag)) :
    generic_check_handler ts = Except.ok () ↔ ∀ t ∈ ts, t.1 = true := by
  simp only [generic_check_handler]
  by_cases h : ((ts.map generic_checker).any fun x => x.isSome) = true
  · rw [if_pos h]
    constructor
    · intro he
      exact Except.noConfusion he
    · intro hall
      rw [(checker_any_false ts).mpr hall] at h
      cases h
  · rw [if_neg h]
    have hf : ((ts.map generic_checker).any fun x => x.isSome) = false := by
      revert h
      cases (ts.map generic_checker).any fun x => x.isSome <;> simp
    constructor
    · intro _
      exact (checker_any_false ts).mp hf
    · intro _
      rfl

/-- generic_check_handler either returns normally or raises the aggregate
exception built from mapping generic_checker over the tests. -/
theorem handler_cases (ts : List (Bool × String × ExcTag)) :
    generic_check_handler ts = Except.ok () ∨
    generic_check_handler ts = Except.error (PyErr.aggregate (ts.map generic_checker)) := by
  unfold generic_check_handler
  by_cases h : (ts.map generic_checker).any (fun x => x.isSome) = true
  · right
    simp [h]
  · left
    simp [Bool.not_eq_true _ |>.mp h]

/-- A column name is listed in df.columns exactly when column lookup succeeds. -/
theorem columns_contains_iff (d : DataFrame) (c : String) :
    d.columns.contains c = true ↔ ∃ vs, d.getCol c = some vs := by
  obtain ⟨cols⟩ := d
  unfold DataFrame.columns DataFrame.getCol
  induction cols with
  | nil => simp
  | cons p rest ih =>
    by_cases hc : p.1 == c
    · simp only [List.map_cons, List.contains_cons, List.find?_cons, hc]
      simp only [Bool.or_eq_true, beq_iff_eq]
      constructor
      · intro _
        exact ⟨p.2, rfl⟩
      · intro _
        left
        exact (beq_iff_eq.mp hc).symm
    · simp only [List.map_cons, List.contains_cons, List.find?_cons, hc]
      rw [show (c == p.1) = false by
        rw [beq_eq_false_iff_ne]
        intro he
        exact absurd (beq_iff_eq.mpr he.symm) (by simp [hc])]
      simpa using ih

/-- Column lookup fails exactly when the name is absent from df.columns. -/
theorem getCol_none_of_not_contains (d : DataFrame) (c : String)
    (h : d.columns.contains c = false) : d.getCol c = none := by
  cases hg : d.getCol c with
  | none => rfl
  | some vs =>
    have := (columns_contains_iff d c).mpr ⟨vs, hg⟩
    rw [h] at this
    cases this

/-- The boolean uniqueness check agrees with List.Nodup. -/
theorem listNodup_iff (l : List String) : listNodup l = true ↔ l.Nodup := by
  induction l with
  | nil => simp [listNodup]
  | cons x xs ih =>
    simp only [listNodup, Bool.and_eq_true, Bool.not_eq_true', List.nodup_cons, ih]
    constructor
    · rintro ⟨h1, h2⟩
      refine ⟨fun hmem => ?_, h2⟩
      have h3 : xs.contains x = true := List.elem_iff.mpr hmem
      rw [h3] at h1
      cases h1
    · rintro ⟨h1, h2⟩
      refine ⟨?_, h2⟩
      cases hc : xs.contains x with
      | false => rfl
      | true =>
        exact absurd (List.elem_iff.mp hc) h1

/-- load_checker on a DataFrame whose Unique_ID lookup succeeds reduces to the
generic handler over the five checker tests. -/
theorem load_checker_df (d : DataFrame) (cfg : Config) (vs : List String)
    (h : d.getCol "Unique_ID" = some vs) :
    load_checker (PyVal.df d) cfg = generic_check_handler [
      (cfg.table_name != "", "Table name cannot be empty.", ExcTag.valueError),
      (cfg.dataset_name != "", "Dataset name cannot be empty.", ExcTag.valueError),
      (true, "Expected a dataframe", ExcTag.typeError),
      (d.columns.contains "Unique_ID", "No Unique_ID col in the output.", ExcTag.keyError),
      (listNodup vs, "The Unique_ID col is not unique.", ExcTag.valueError)] := by
  unfold load_checker
  simp only [PyVal.columnsAttr, PyVal.getItem, PyVal.isDFb, h, PyVal.emptyAttr]
  rcases handler_cases [
      (cfg.table_name != "", "Table name cannot be empty.", ExcTag.valueError),
      (cfg.dataset_name != "", "Dataset name cannot be empty.", ExcTag.valueError),
      (true, "Expected a dataframe", ExcTag.typeError),
      (d.columns.contains "Unique_ID", "No Unique_ID col in the output.", ExcTag.keyError),
      (listNodup vs, "The Unique_ID col is not unique.", ExcTag.valueError)] with hh | hh <;>
    rw [hh]

/-- transform_checker on a DataFrame whose Unique_ID lookup succeeds reduces
to the generic handler over the three checker tests. -/
theorem transform_checker_df (d : DataFrame) (vs : List String)
    (h : d.getCol "Unique_ID" = some vs) :
    transform_checker (PyVal.df d) = generic_check_handler [
      (true, "Expected a dataframe", ExcTag.typeError),
      (d.columns.contains "Unique_ID", "No Unique_ID col in the output.", ExcTag.keyError),
      (listNodup vs, "The Unique_ID col is not unique.", ExcTag.valueError)] := by
  unfold transform_checker
  simp only [PyVal.columnsAttr, PyVal.getItem, PyVal.isDFb, h]

/-- When the batch is never done, the polling loop never returns, whatever the
fuel. -/
theorem pollEvents_none (isDone : Nat → Bool) (h : ∀ n, isDone n = false) :
    ∀ fuel k, pollEvents isDone fuel k = none := by
  intro fuel
  induction fuel with
  | zero => intro k; rfl
  | succ m ih =>
    intro k
    simp [pollEvents, h k, ih (k + 1)]

/-- When polls k, ..., k+n-1 come back false and poll k+n comes back true, the
loop with fuel n+1 returns the canonical poll trace. -/
theorem pollEvents_eq (isDone : Nat → Bool) : ∀ (n k : Nat),
    (∀ i, i < n → isDone (k + i) = false) → isDone (k + n) = true →
    pollEvents isDone (n + 1) k = some (pollTrace k n) := by
  intro n
  induction n with
  | zero =>
    intro k _ h2
    rw [Nat.add_zero] at h2
    simp [pollEvents, h2, pollTrace]
  | succ m ih =>
    intro k h1 h2
    have hk : isDone k = false := by
      have := h1 0 (Nat.succ_pos m)
      rwa [Nat.add_zero] at this
    have hrec : pollEvents isDone (m + 1) (k + 1) = some (pollTrace (k + 1) m) := by
      apply ih
      · intro i hi
        have := h1 (i + 1) (by omega)
        rwa [show k + (i + 1) = k + 1 + i by omega] at this
      · rwa [show k + 1 + m = k + (m + 1) by omega]
    have hstep : pollEvents isDone (m + 1 + 1) k =
        (match pollEvents isDone (m + 1) (k + 1) with
         | none => none
         | some evs => some (BulkEvent.checkDone k false :: BulkEvent.sleepSec 1 :: evs)) := by
      rw [show pollEvents isDone (m + 1 + 1) k =
          (if isDone k then some [BulkEvent.checkDone k true]
           else match pollEvents isDone (m + 1) (k + 1) with
             | none => none
             | some evs => some (BulkEvent.checkDone k false :: BulkEvent.sleepSec 1 :: evs))
          from rfl, hk]
      simp
    rw [hstep, hrec]
    rfl

/-- Step counts of a poll trace: one sleep of one second per unsuccessful
poll, and no job-management or fetch events at all. -/
theorem pollTrace_counts : ∀ (n k : Nat),
    (pollTrace k n).countP isSleepEv = n ∧
    (pollTrace k n).countP isCreateEv = 0 ∧
    (pollTrace k n).countP isSubmitEv = 0 ∧
    (pollTrace k n).countP isCloseEv = 0 ∧
    (pollTrace k n).countP isFetchEv = 0 := by
  intro n
  induction n with
  | zero =>
    intro k
    simp [pollTrace, List.countP_cons, isSleepEv, isCreateEv, isSubmitEv, isCloseEv, isFetchEv]
  | succ m ih =>
    intro k
    obtain ⟨h1, h2, h3, h4, h5⟩ := ih (k + 1)
    simp [pollTrace, List.countP_cons, isSleepEv, isCreateEv, isSubmitEv, isCloseEv, isFetchEv,
      h1, h2, h3, h4, h5]

/-- Every sleep in a poll trace is a one-second sleep. -/
theorem pollTrace_sleep_mem : ∀ (n k m : Nat),
    BulkEvent.sleepSec m ∈ pollTrace k n → m = 1 := by
  intro n
  induction n with
  | zero =>
    intro k m hm
    simp [pollTrace] at hm
  | succ j ih =>
    intro k m hm
    simp only [pollTrace, List.mem_cons] at hm
    rcases hm with h | h | h
    · cases h
    · injection h
    · exact ih (k + 1) m h

/-- A poll trace ends with the successful poll. -/
theorem pollTrace_concat : ∀ (n k : Nat),
    ∃ mid, pollTrace k n = mid ++ [BulkEvent.checkDone (k + n) true] := by
  intro n
  induction n with
  | zero =>
    intro k
    exact ⟨[], by simp [pollTrace]⟩
  | succ m ih =>
    intro k
    obtain ⟨mid, hm⟩ := ih (k + 1)
    refine ⟨BulkEvent.checkDone k false :: BulkEvent.sleepSec 1 :: mid, ?_⟩
    rw [show k + (m + 1) = k + 1 + m by omega]
    simp [pollTrace, hm]

/-- The zipped fan-in fold of the asynchronous path coincides with the direct
fold over the jobs, for every starting dictionary. -/
theorem zipFold_eq (jobs : List ExtractorJob) : ∀ acc,
    (List.zip (tasksOf jobs) (jobs.map (fun j => j.name))).foldl
      (fun acc p => dictInsert acc ("df_" ++ p.2) p.1) acc
    = jobs.foldl (fun acc job => dictInsert acc ("df_" ++ job.name) (job.runner job.query)) acc := by
  induction jobs with
  | nil => intro acc; rfl
  | cons j rest ih =>
    intro acc
    simp only [tasksOf, List.map_cons, List.zip_cons_cons, List.foldl_cons]
    exact ih _

/-- C1: for a TemplatePipeline whose config is not None (and whose stage
outputs pass the checkers, so that no stage raises), run() calls the
extractor with the config, passes exactly the resulting Data object to the
transformer, passes the resulting DataFrame together with the pipeline config
to the load stage, and returns None. -/
theorem C1_run_sequences (p : Pipeline) (cfg : Config)
    (ht : transform_checker (p.transformerRun (p.extractorRun cfg)) = Except.ok ())
    (hl : load_checker (p.transformerRun (p.extractorRun cfg)) cfg = Except.ok ()) :
    pipelineRun p (some cfg) = (Except.ok (),
      [StageEvent.extractCall cfg (p.extractorRun cfg),
       StageEvent.transformCall (p.extractorRun cfg) (p.transformerRun (p.extractorRun cfg)),
       StageEvent.loadCall (p.transformerRun (p.extractorRun cfg)) cfg]) := by
  simp [pipelineRun, ht, hl]

/-- Witness for C1 at a concrete pipeline whose transformer output passes all
checks. -/
theorem C1_run_sequences_witness :
    transform_checker (PyVal.df dfW) = Except.ok () ∧
    load_checker (PyVal.df dfW) cfgW = Except.ok () ∧
    pipelineRun pW (some cfgW) = (Except.ok (),
      [StageEvent.extractCall cfgW dataW,
       StageEvent.transformCall dataW (PyVal.df dfW),
       StageEvent.loadCall (PyVal.df dfW) cfgW]) :=
  ⟨rfl, rfl, C1_run_sequences pW cfgW rfl rfl⟩

/-- C2: a load invocation on an empty DataFrame that passes the name checks
and the Unique_ID presence check performs no write: BaseLoad.__call__ returns
None without ever invoking the concrete load method. -/
theorem C2_empty_short_circuit (projectId : String) (d : DataFrame) (cfg : Config)
    (h1 : cfg.table_name ≠ "") (h2 : cfg.dataset_name ≠ "")
    (h3 : d.columns.contains "Unique_ID" = true) (h4 : d.isEmpty = true) :
    BaseLoad_call projectId (PyVal.df d) cfg = Except.ok none := by
  have e1 : (cfg.table_name == "") = false := beq_eq_false_iff_ne.mpr h1
  have e2 : (cfg.dataset_name == "") = false := beq_eq_false_iff_ne.mpr h2
  have hmem : "Unique_ID" ∈ d.columns := List.elem_iff.mp h3
  simp [BaseLoad_call, e1, e2, h3, hmem, h4]

/-- Witness for C2 at a concrete empty DataFrame with a Unique_ID column. -/
theorem C2_empty_short_circuit_witness :
    (cfgW.table_name ≠ "" ∧ cfgW.dataset_name ≠ "" ∧
     dfEmptyW.columns.contains "Unique_ID" = true ∧ dfEmptyW.isEmpty = true) ∧
    BaseLoad_call "proj" (PyVal.df dfEmptyW) cfgW = Except.ok none :=
  ⟨⟨by decide, by decide, rfl, rfl⟩,
   C2_empty_short_circuit "proj" dfEmptyW cfgW (by decide) (by decide) rfl rfl⟩

/-- C3: the asyncio extraction path is a pure fan-out/fan-in refinement of the
sequential path: for every job list it produces the same dataframes dict, with
the same keys bound in the same job order, and it creates exactly one task per
job, with no bound on how many. -/
theorem C3_async_refinement (jobs : List ExtractorJob) :
    runAsync jobs = runSeq jobs ∧ (tasksOf jobs).length = jobs.length := by
  constructor
  · exact zipFold_eq jobs []
  · simp [tasksOf]

/-- C4: the transform stage raises when its output is not a DataFrame, lacks
a Unique_ID column, or has duplicate Unique_ID values, and raises nothing on
that account otherwise; the load stage passes its checker only under the same
presence and uniqueness conditions, and the pipeline only reaches the loader
call after that checker has passed. -/
theorem C4_unique_id_validation (out : PyVal) (cfg : Config) :
    ((∀ d, out ≠ PyVal.df d) → ∃ e, transform_checker out = Except.error e) ∧
    (∀ d, out = PyVal.df d → d.getCol "Unique_ID" = none →
      transform_checker out = Except.error (PyErr.keyError "Unique_ID")) ∧
    (∀ d vs, out = PyVal.df d → d.getCol "Unique_ID" = some vs → ¬ vs.Nodup →
      ∃ e, transform_checker out = Except.error e) ∧
    (∀ d vs, out = PyVal.df d → d.getCol "Unique_ID" = some vs → vs.Nodup →
      transform_checker out = Except.ok ()) ∧
    (load_checker out cfg = Except.ok () →
      ∃ d vs, out = PyVal.df d ∧ d.getCol "Unique_ID" = some vs ∧ vs.Nodup) ∧
    (∀ p : Pipeline, ((pipelineRun p (some cfg)).2.any isLoadCallEv) = true →
      load_checker (p.transformerRun (p.extractorRun cfg)) cfg = Except.ok ()) := by
  refine ⟨?_, ?_, ?_, ?_, ?_, ?_⟩
  · intro hnd
    cases out with
    | df d => exact absurd rfl (hnd d)
    | pyNone => exact ⟨PyErr.attributeError "columns", rfl⟩
    | str s => exact ⟨PyErr.attributeError "columns", rfl⟩
    | dict l => exact ⟨PyErr.attributeError "columns", rfl⟩
  · intro d hd hnone
    subst hd
    simp [transform_checker, PyVal.columnsAttr, PyVal.getItem, PyVal.isDFb, hnone]
  · intro d vs hd hsome hnodup
    subst hd
    rw [transform_checker_df d vs hsome]
    rcases handler_cases [
        (true, "Expected a dataframe", ExcTag.typeError),
        (d.columns.contains "Unique_ID", "No Unique_ID col in the output.", ExcTag.keyError),
        (listNodup vs, "The Unique_ID col is not unique.", ExcTag.valueError)] with hh | hh
    · have := (handler_ok_iff _).mp hh
        (listNodup vs, "The Unique_ID col is not unique.", ExcTag.valueError) (by simp)
      exact absurd ((listNodup_iff vs).mp this) hnodup
    · exact ⟨_, hh⟩
  · intro d vs hd hsome hnodup
    subst hd
    have hc : d.columns.contains "Unique_ID" = true :=
      (columns_contains_iff d "Unique_ID").mpr ⟨vs, hsome⟩
    have hn : listNodup vs = true := (listNodup_iff vs).mpr hnodup
    rw [transform_checker_df d vs hsome, hc, hn]
    rfl
  · intro hok
    cases out with
    | pyNone => simp [load_checker, PyVal.columnsAttr] at hok
    | str s => simp [load_checker, PyVal.columnsAttr] at hok
    | dict l => simp [load_checker, PyVal.columnsAttr] at hok
    | df d =>
      cases hg : d.getCol "Unique_ID" with
      | none => simp [load_checker, PyVal.columnsAttr, PyVal.getItem, hg] at hok
      | some vs =>
        rw [load_checker_df d cfg vs hg] at hok
        have := (handler_ok_iff _).mp hok
          (listNodup vs, "The Unique_ID col is not unique.", ExcTag.valueError) (by simp)
        exact ⟨d, vs, rfl, hg, (listNodup_iff vs).mp this⟩
  · intro p hany
    cases htc : transform_checker (p.transformerRun (p.extractorRun cfg)) with
    | error e => simp [pipelineRun, htc, isLoadCallEv] at hany
    | ok u =>
      cases u
      cases hlc : load_checker (p.transformerRun (p.extractorRun cfg)) cfg with
      | error e => simp [pipelineRun, htc, hlc, isLoadCallEv] at hany
      | ok v =>
        cases v
        rfl

/-- Witness for C4: each validation branch exercised at a concrete input. -/
theorem C4_unique_id_validation_witness :
    (∃ e, transform_checker PyVal.pyNone = Except.error e) ∧
    transform_checker (PyVal.df dfNoIdW) = Except.error (PyErr.keyError "Unique_ID") ∧
    (∃ e, transform_checker (PyVal.df ⟨[("Unique_ID", ["a", "a"])]⟩) = Except.error e) ∧
    transform_checker (PyVal.df dfW) = Except.ok () ∧
    (∃ d vs, PyVal.df dfW = PyVal.df d ∧ d.getCol "Unique_ID" = some vs ∧ vs.Nodup) :=
  ⟨(C4_unique_id_validation PyVal.pyNone cfgW).1 (fun d h => PyVal.noConfusion h),
   (C4_unique_id_validation (PyVal.df dfNoIdW) cfgW).2.1 dfNoIdW rfl rfl,
   (C4_unique_id_validation (PyVal.df ⟨[("Unique_ID", ["a", "a"])]⟩) cfgW).2.2.1
     ⟨[("Unique_ID", ["a", "a"])]⟩ ["a", "a"] rfl rfl (by decide),
   (C4_unique_id_validation (PyVal.df dfW) cfgW).2.2.2.1 dfW ["a", "b"] rfl rfl (by decide),
   (C4_unique_id_validation (PyVal.df dfW) cfgW).2.2.2.2.1 rfl⟩

/-- Counterexample to C5 as stated: in the load stage of the pipeline, an
empty table name makes load_checker raise the aggregated generic Exception,
which is not a ValueError. -/
theorem C5_counterexample :
    load_checker (PyVal.df dfW) cfgEmptyTableW =
      Except.error (PyErr.aggregate [some ExcTag.valueError, none, none, none, none]) ∧
    ¬ ∃ m, load_checker (PyVal.df dfW) cfgEmptyTableW = Except.error (PyErr.valueError m) := by
  constructor
  · rfl
  · rintro ⟨m, hm⟩
    rw [show load_checker (PyVal.df dfW) cfgEmptyTableW =
      Except.error (PyErr.aggregate [some ExcTag.valueError, none, none, none, none])
      from rfl] at hm
    injection hm with h2
    cases h2

/-- C5 as amended: with an empty table or dataset name, BaseLoad.__call__
raises a ValueError and never invokes the sink load method, while the
pipeline's load_checker raises the aggregated generic Exception that records
the failed check as a ValueError class; with both names non-empty, neither
name check raises. -/
theorem C5_amended_names (projectId : String) (d : DataFrame) (cfg : Config) (vs : List String)
    (hd : d.getCol "Unique_ID" = some vs) :
    ((cfg.table_name = "" ∨ cfg.dataset_name = "") →
      (∃ m, BaseLoad_call projectId (PyVal.df d) cfg = Except.error (PyErr.valueError m)) ∧
      (∃ l, load_checker (PyVal.df d) cfg = Except.error (PyErr.aggregate l) ∧
        some ExcTag.valueError ∈ l)) ∧
    (cfg.table_name ≠ "" → cfg.dataset_name ≠ "" →
      BaseLoad_call projectId (PyVal.df d) cfg ≠
        Except.error (PyErr.valueError "Table name cannot be empty.") ∧
      BaseLoad_call projectId (PyVal.df d) cfg ≠
        Except.error (PyErr.valueError "Dataset name cannot be empty.") ∧
      (∀ l, load_checker (PyVal.df d) cfg = Except.error (PyErr.aggregate l) →
        l.take 2 = [none, none])) := by
  constructor
  · intro hemp
    constructor
    · by_cases ht : cfg.table_name = ""
      · have e1 : (cfg.table_name == "") = true := beq_iff_eq.mpr ht
        exact ⟨"Table name cannot be empty.", by simp [BaseLoad_call, e1]⟩
      · have hds : cfg.dataset_name = "" := hemp.resolve_left ht
        have e1 : (cfg.table_name == "") = false := beq_eq_false_iff_ne.mpr ht
        have e2 : (cfg.dataset_name == "") = true := beq_iff_eq.mpr hds
        exact ⟨"Dataset name cannot be empty.", by simp [BaseLoad_call, e1, e2]⟩
    · rw [load_checker_df d cfg vs hd]
      rcases handler_cases [
          (cfg.table_name != "", "Table name cannot be empty.", ExcTag.valueError),
          (cfg.dataset_name != "", "Dataset name cannot be empty.", ExcTag.valueError),
          (true, "Expected a dataframe", ExcTag.typeError),
          (d.columns.contains "Unique_ID", "No Unique_ID col in the output.", ExcTag.keyError),
          (listNodup vs, "The Unique_ID col is not unique.", ExcTag.valueError)] with hh | hh
      · exfalso
        have hall := (handler_ok_iff _).mp hh
        rcases hemp with ht | hds
        · have := hall (cfg.table_name != "", "Table name cannot be empty.", ExcTag.valueError)
            (by simp)
          rw [ht] at this
          simp at this
        · have := hall (cfg.dataset_name != "", "Dataset name cannot be empty.", ExcTag.valueError)
            (by simp [List.mem_cons])
          rw [hds] at this
          simp at this
      · refine ⟨_, hh, ?_⟩
        simp only [List.map_cons, List.map_nil, List.mem_cons]
        rcases hemp with ht | hds
        · left
          simp [generic_checker, ht]
        · right
          left
          simp [generic_checker, hds]
  · intro h1 h2
    have e1 : (cfg.table_name == "") = false := beq_eq_false_iff_ne.mpr h1
    have e2 : (cfg.dataset_name == "") = false := beq_eq_false_iff_ne.mpr h2
    have hcont : d.columns.contains "Unique_ID" = true :=
      (columns_contains_iff d "Unique_ID").mpr ⟨vs, hd⟩
    have hmem : "Unique_ID" ∈ d.columns := List.elem_iff.mp hcont
    have hshape : BaseLoad_call projectId (PyVal.df d) cfg = Except.ok none ∨
        ∃ x, BaseLoad_call projectId (PyVal.df d) cfg = Except.ok (some x) := by
      by_cases he : d.isEmpty = true
      · left
        simp [BaseLoad_call, e1, e2, hcont, hmem, he]
      · have he2 : d.isEmpty = false := by
          revert he
          cases d.isEmpty <;> simp
        right
        refine ⟨(d, projectId ++ "." ++ cfg.dataset_name ++ "." ++ cfg.table_name), ?_⟩
        simp [BaseLoad_call, e1, e2, hcont, hmem, he2]
    refine ⟨?_, ?_, ?_⟩
    · intro heq
      rcases hshape with hs | ⟨x, hs⟩ <;> rw [hs] at heq <;> cases heq
    · intro heq
      rcases hshape with hs | ⟨x, hs⟩ <;> rw [hs] at heq <;> cases heq
    · intro l hl
      rw [load_checker_df d cfg vs hd] at hl
      rcases handler_cases [
          (cfg.table_name != "", "Table name cannot be empty.", ExcTag.valueError),
          (cfg.dataset_name != "", "Dataset name cannot be empty.", ExcTag.valueError),
          (true, "Expected a dataframe", ExcTag.typeError),
          (d.columns.contains "Unique_ID", "No Unique_ID col in the output.", ExcTag.keyError),
          (listNodup vs, "The Unique_ID col is not unique.", ExcTag.valueError)] with hh | hh
      · rw [hh] at hl
        cases hl
      · rw [hh] at hl
        injection hl with h3
        injection h3 with h4
        rw [← h4]
        have b1 : (cfg.table_name != "") = true := bne_iff_ne.mpr h1
        have b2 : (cfg.dataset_name != "") = true := bne_iff_ne.mpr h2
        simp [generic_checker, b1, b2]

/-- Witness for the amended C5 at a concrete config with an empty table name
(first part) and at a concrete well-named config (second part). -/
theorem C5_amended_names_witness :
    dfW.getCol "Unique_ID" = some ["a", "b"] ∧
    ((cfgEmptyTableW.table_name = "" ∨ cfgEmptyTableW.dataset_name = "") →
      (∃ m, BaseLoad_call "proj" (PyVal.df dfW) cfgEmptyTableW =
        Except.error (PyErr.valueError m)) ∧
      (∃ l, load_checker (PyVal.df dfW) cfgEmptyTableW =
        Except.error (PyErr.aggregate l) ∧ some ExcTag.valueError ∈ l)) ∧
    (cfgEmptyTableW.table_name = "" ∨ cfgEmptyTableW.dataset_name = "") :=
  ⟨rfl, ((C5_amended_names "proj" dfW cfgEmptyTableW ["a", "b"] rfl).1 : _), Or.inl rfl⟩

/-- C6 divergence: the claim says every input-validation failure of the
transform stage is logged and ends in sys.exit, but on a dict holding a
non-DataFrame value the loop evaluates value.empty and an AttributeError
escapes to the caller instead of sys.exit. The remaining branches do behave
as claimed: a non-dict dataframes attribute, an empty frame, and a None
pipeline config all end in sys.exit (the latter without any stage call). -/
theorem C6_log_and_exit :
    test_inputs ⟨PyVal.dict [("k", PyVal.pyNone)]⟩ =
      Except.error (PyErr.attributeError "empty") ∧
    PyErr.attributeError "empty" ≠ PyErr.sysExit ∧
    test_inputs ⟨PyVal.str "nope"⟩ = Except.error PyErr.sysExit ∧
    test_inputs ⟨PyVal.dict [("k", PyVal.df dfEmptyW)]⟩ = Except.error PyErr.sysExit ∧
    pipelineRun pW none = (Except.error PyErr.sysExit, []) :=
  ⟨rfl, by decide, rfl, rfl, rfl⟩

/-- Counterexample to C7 as stated: on a query without the FROM keyword,
_bulk_query raises IndexError while extracting the object name, before any
query job is created. -/
theorem C7_counterexample :
    bulkQuery (fun _ => true) 5 "SELECT Id" =
      Except.error (PyErr.indexError "list index out of range") ∧
    ¬ ∃ r, bulkQuery (fun _ => true) 5 "SELECT Id" = Except.ok r := by
  constructor
  · rfl
  · rintro ⟨r, hr⟩
    rw [show bulkQuery (fun _ => true) 5 "SELECT Id" =
      Except.error (PyErr.indexError "list index out of range") from rfl] at hr
    cases hr

/-- C7 as amended: for every query whose object extraction succeeds,
_bulk_query creates one query job, submits one batch, closes the job, then
polls is_batch_done sleeping one second per unsuccessful poll, fetches the
results exactly once, immediately after the first successful poll, and
terminates exactly when is_batch_done eventually returns true. -/
theorem C7_bulk_polling (isDone : Nat → Bool) (q obj : String)
    (hq : extractObj q = Except.ok obj) : bulkQuerySpec isDone q obj := by
  constructor
  · intro hfalse fuel
    simp [bulkQuery, hq, pollEvents_none isDone hfalse fuel 0]
  · intro hdone
    have h1 : ∀ i, i < Nat.find hdone → isDone (0 + i) = false := by
      intro i hi
      rw [Nat.zero_add]
      have := Nat.find_min hdone hi
      revert this
      cases isDone i <;> simp
    have h2 : isDone (0 + Nat.find hdone) = true := by
      rw [Nat.zero_add]
      exact Nat.find_spec hdone
    have hpoll := pollEvents_eq isDone (Nat.find hdone) 0 h1 h2
    obtain ⟨hs, hcr, hsub, hcl, hf⟩ := pollTrace_counts (Nat.find hdone) 0
    refine ⟨BulkEvent.createJob obj :: BulkEvent.submitBatch q :: BulkEvent.closeJob ::
      (pollTrace 0 (Nat.find hdone) ++ [BulkEvent.fetchResults]),
      ?_, ⟨_, rfl⟩, ?_, ?_, ?_, ?_, ?_, ?_, ?_⟩
    · simp [bulkQuery, hq, hpoll]
    · simp [List.countP_cons, List.countP_append, List.countP_nil,
        isCreateEv, isSubmitEv, isCloseEv, isFetchEv, hcr]
    · simp [List.countP_cons, List.countP_append, List.countP_nil,
        isCreateEv, isSubmitEv, isCloseEv, isFetchEv, hsub]
    · simp [List.countP_cons, List.countP_append, List.countP_nil,
        isCreateEv, isSubmitEv, isCloseEv, isFetchEv, hcl]
    · simp [List.countP_cons, List.countP_append, List.countP_nil,
        isCreateEv, isSubmitEv, isCloseEv, isFetchEv, hf]
    · simp [List.countP_cons, List.countP_append, List.countP_nil,
        isCreateEv, isSubmitEv, isCloseEv, isFetchEv, isSleepEv, hs]
    · intro m hm
      simp only [List.mem_cons, List.mem_append, List.mem_singleton] at hm
      rcases hm with h | h | h | h | h | h
      · cases h
      · cases h
      · cases h
      · exact pollTrace_sleep_mem (Nat.find hdone) 0 m h
      · cases h
      · simp at h
    · obtain ⟨mid, hmid⟩ := pollTrace_concat (Nat.find hdone) 0
      refine ⟨BulkEvent.createJob obj :: BulkEvent.submitBatch q ::
        BulkEvent.closeJob :: mid, ?_⟩
      rw [hmid]
      simp

/-- Witness for the amended C7 at a concrete query and a batch that becomes
done at the third poll. -/
theorem C7_bulk_polling_witness :
    extractObj "SELECT Id FROM Account" = Except.ok "Account" ∧
    bulkQuerySpec isDoneW "SELECT Id FROM Account" "Account" :=
  ⟨rfl, C7_bulk_polling isDoneW "SELECT Id FROM Account" "Account" rfl⟩

/-- C8: on a DataFrame without a Unique_ID column, both checkers raise the
pandas KeyError produced while the test list is being built, never the
aggregated Exception; the aggregation can only fire on inputs where every
test expression evaluated, i.e. on DataFrames whose Unique_ID lookup
succeeded. -/
theorem C8_missing_column (d : DataFrame) (cfg : Config)
    (h : d.columns.contains "Unique_ID" = false) :
    transform_checker (PyVal.df d) = Except.error (PyErr.keyError "Unique_ID") ∧
    load_checker (PyVal.df d) cfg = Except.error (PyErr.keyError "Unique_ID") ∧
    (∀ out cfg2 l, load_checker out cfg2 = Except.error (PyErr.aggregate l) →
      ∃ d2 vs, out = PyVal.df d2 ∧ d2.getCol "Unique_ID" = some vs) ∧
    (∀ out l, transform_checker out = Except.error (PyErr.aggregate l) →
      ∃ d2 vs, out = PyVal.df d2 ∧ d2.getCol "Unique_ID" = some vs) := by
  have hg : d.getCol "Unique_ID" = none := getCol_none_of_not_contains d "Unique_ID" h
  refine ⟨?_, ?_, ?_, ?_⟩
  · simp [transform_checker, PyVal.columnsAttr, PyVal.getItem, PyVal.isDFb, hg]
  · simp [load_checker, PyVal.columnsAttr, PyVal.getItem, PyVal.isDFb, hg]
  · intro out cfg2 l hl
    cases out with
    | pyNone => simp [load_checker, PyVal.columnsAttr] at hl
    | str s => simp [load_checker, PyVal.columnsAttr] at hl
    | dict items => simp [load_checker, PyVal.columnsAttr] at hl
    | df d2 =>
      cases hg2 : d2.getCol "Unique_ID" with
      | none => simp [load_checker, PyVal.columnsAttr, PyVal.getItem, hg2] at hl
      | some vs => exact ⟨d2, vs, rfl, hg2⟩
  · intro out l hl
    cases out with
    | pyNone => simp [transform_checker, PyVal.columnsAttr] at hl
    | str s => simp [transform_checker, PyVal.columnsAttr] at hl
    | dict items => simp [transform_checker, PyVal.columnsAttr] at hl
    | df d2 =>
      cases hg2 : d2.getCol "Unique_ID" with
      | none => simp [transform_checker, PyVal.columnsAttr, PyVal.getItem, hg2] at hl
      | some vs => exact ⟨d2, vs, rfl, hg2⟩

/-- Witness for C8 at a concrete DataFrame lacking a Unique_ID column. -/
theorem C8_missing_column_witness :
    dfNoIdW.columns.contains "Unique_ID" = false ∧
    transform_checker (PyVal.df dfNoIdW) = Except.error (PyErr.keyError "Unique_ID") ∧
    load_checker (PyVal.df dfNoIdW) cfgW = Except.error (PyErr.keyError "Unique_ID") :=
  ⟨rfl, (C8_missing_column dfNoIdW cfgW rfl).1, (C8_missing_column dfNoIdW cfgW rfl).2.1⟩

/-- C9: under LOCATION cloud, constructing a Config with update_mode False
flips the stored update_mode to True but leaves min_date exactly the given
argument; min_date is recomputed (as now minus lookbacktime days) exactly when
the update_mode parameter itself is True, overwriting any explicit min_date. -/
theorem C9_config_min_date (fmt : Int → String) (t ds : String) (lb : Int) (m : String) :
    (Config.init (some "cloud") fmt false t ds lb m).update_mode = true ∧
    (Config.init (some "cloud") fmt false t ds lb m).min_date = m ∧
    (∀ loc, (Config.init loc fmt false t ds lb m).min_date = m) ∧
    (∀ loc, (Config.init loc fmt true t ds lb m).min_date = fmt lb) ∧
    (∀ loc, (Config.init loc fmt true t ds lb m).update_mode = true) := by
  refine ⟨rfl, rfl, ?_, ?_, ?_⟩
  · intro loc
    by_cases h : (loc == some "cloud") = true <;> simp [Config.init, h]
  · intro loc
    by_cases h : (loc == some "cloud") = true <;> simp [Config.init, h]
  · intro loc
    by_cases h : (loc == some "cloud") = true <;> simp [Config.init, h]

/-- C10: for either value of the bulk flag, constructing a SalesforceExtractor
with an empty creds_json returns normally, logs the two error lines, stores
the simple-query method as query_runner, and sets no client attribute. -/
theorem C10_sf_init_no_creds (getCreds : String → Except PyErr SalesforceCreds) (bulk : Bool) :
    SalesforceExtractor_init getCreds bulk "" =
      Except.ok (⟨RunnerKind.simpleQuery, none⟩,
        ["SalesforceExtractor: No Salesforce credentials JSON file provided.",
         "SalesforceExtractor: set salesforce_creds_json = [path to JSON file]"]) := rfl

end Etl
